import Mathlib

/-!
# Verification of the automaker review-loop engine

A shallow embedding of the review-loop engine of the `automaker-loop`
repository: the quality-gate evaluator and refinement service
(`apps/server/src/services`), the session store
(`apps/server/src/lib/review-loop-storage`), the two PR monitors, and the
diff analyzer (`libs/git-utils/src/diff-analyzer.ts`).  Pure TypeScript
functions become Lean functions; the stateful session store becomes explicit
state passing over the per-feature session file; fallible operations return
`Except`.  Presentation-only fields of results (human-readable `message`,
`summary`, `details` strings and timestamps produced from the wall clock) are
elided where no control flow depends on them; timestamps that the logic does
store are passed in as explicit `now` arguments.
-/

namespace AutomakerLoop

/-- Severity of a review issue (`libs/types/src/review-loop.ts`). -/
inductive ReviewIssueSeverity where
  | critical
  | high
  | medium
  | low
  | suggestion
deriving DecidableEq, Repr

/-- Category of a review issue (`libs/types/src/review-loop.ts`). -/
inductive ReviewIssueCategory where
  | security
  | architecture
  | logic
  | style
  | performance
  | testing
  | documentation
deriving DecidableEq, Repr

/-- A single issue identified during review (`ReviewIssue`). -/
structure ReviewIssue where
  id : String
  severity : ReviewIssueSeverity
  category : ReviewIssueCategory
  file : Option String := none
  lineStart : Option Nat := none
  lineEnd : Option Nat := none
  description : String := ""
  suggestedFix : Option String := none
deriving DecidableEq, Repr

/-- `QualityGateThresholds`; TypeScript numbers are modelled as rationals. -/
structure QualityGateThresholds where
  minTestCoverage : Rat
  maxComplexity : Rat
  maxDuplication : Rat
  requiredCategories : List ReviewIssueCategory
deriving DecidableEq, Repr

/-- `DEFAULT_QUALITY_GATE_THRESHOLDS` from `libs/types/src/review-loop.ts`. -/
def DEFAULT_QUALITY_GATE_THRESHOLDS : QualityGateThresholds :=
  { minTestCoverage := 80
    maxComplexity := 10
    maxDuplication := 5
    requiredCategories := [ReviewIssueCategory.security] }

/-- Status of one quality-gate check. -/
inductive QualityGateCheckStatus where
  | passed
  | failed
  | skipped
deriving DecidableEq, Repr

/-- Result of one quality-gate check.  The source also carries `message`,
`currentValue`, `threshold` and `details`, which are presentation strings and
echoes of the inputs; no control flow reads them, so they are elided here. -/
structure QualityGateCheckResult where
  name : String
  status : QualityGateCheckStatus
deriving DecidableEq, Repr

/-- Overall verdict of a quality-gate evaluation. -/
inductive QualityGateVerdict where
  | passed
  | failed
  | warning
deriving DecidableEq, Repr

/-- Issue counts by severity (`IssueSeverityCounts`). -/
structure IssueSeverityCounts where
  critical : Nat
  high : Nat
  medium : Nat
  low : Nat
  suggestion : Nat
deriving DecidableEq, Repr

/-- Issue counts by category (`IssueCategoryCounts`). -/
structure IssueCategoryCounts where
  security : Nat
  architecture : Nat
  logic : Nat
  style : Nat
  performance : Nat
  testing : Nat
  documentation : Nat
deriving DecidableEq, Repr

/-- `SEVERITY_ORDER` from `quality-gate-evaluator.ts`: severities from most to
least severe. -/
def SEVERITY_ORDER : List ReviewIssueSeverity :=
  [.critical, .high, .medium, .low, .suggestion]

/-- `isSeverityAtOrAbove(severity, threshold)`: index in `SEVERITY_ORDER` at or
below the threshold's index (every severity occurs in the list, so the `-1`
branch of `indexOf` is unreachable). -/
def isSeverityAtOrAbove (severity threshold : ReviewIssueSeverity) : Bool :=
  SEVERITY_ORDER.indexOf severity ≤ SEVERITY_ORDER.indexOf threshold

/-- `countIssuesBySeverity`: one pass incrementing the matching field. -/
def bumpSeverityCount (counts : IssueSeverityCounts) :
    ReviewIssueSeverity → IssueSeverityCounts
  | .critical => { counts with critical := counts.critical + 1 }
  | .high => { counts with high := counts.high + 1 }
  | .medium => { counts with medium := counts.medium + 1 }
  | .low => { counts with low := counts.low + 1 }
  | .suggestion => { counts with suggestion := counts.suggestion + 1 }

/-- `countIssuesBySeverity` from `quality-gate-evaluator.ts`. -/
def countIssuesBySeverity (issues : List ReviewIssue) : IssueSeverityCounts :=
  issues.foldl (fun c i => bumpSeverityCount c i.severity) ⟨0, 0, 0, 0, 0⟩

/-- One step of `countIssuesByCategory`. -/
def bumpCategoryCount (counts : IssueCategoryCounts) :
    ReviewIssueCategory → IssueCategoryCounts
  | .security => { counts with security := counts.security + 1 }
  | .architecture => { counts with architecture := counts.architecture + 1 }
  | .logic => { counts with logic := counts.logic + 1 }
  | .style => { counts with style := counts.style + 1 }
  | .performance => { counts with performance := counts.performance + 1 }
  | .testing => { counts with testing := counts.testing + 1 }
  | .documentation => { counts with documentation := counts.documentation + 1 }

/-- `countIssuesByCategory` from `quality-gate-evaluator.ts`. -/
def countIssuesByCategory (issues : List ReviewIssue) : IssueCategoryCounts :=
  issues.foldl (fun c i => bumpCategoryCount c i.category) ⟨0, 0, 0, 0, 0, 0, 0⟩

/-- `countIssuesAtOrAboveSeverity`. -/
def countIssuesAtOrAboveSeverity (issues : List ReviewIssue)
    (threshold : ReviewIssueSeverity) : Nat :=
  (issues.filter fun issue => isSeverityAtOrAbove issue.severity threshold).length

/-- `getIssuesInCategory`. -/
def getIssuesInCategory (issues : List ReviewIssue)
    (category : ReviewIssueCategory) : List ReviewIssue :=
  issues.filter fun issue => issue.category == category

/-- `checkSeverityThreshold`: fails when any issue is at or above the
threshold, passes otherwise (never skipped). -/
def checkSeverityThreshold (issues : List ReviewIssue)
    (severityThreshold : ReviewIssueSeverity) : QualityGateCheckResult :=
  let blockingIssuesCount := countIssuesAtOrAboveSeverity issues severityThreshold
  if blockingIssuesCount = 0 then
    { name := "Severity Threshold", status := .passed }
  else
    { name := "Severity Threshold", status := .failed }

/-- `checkRequiredCategories`: skipped when no categories are required, fails
when any required category has an issue. -/
def checkRequiredCategories (issues : List ReviewIssue)
    (requiredCategories : List ReviewIssueCategory) : QualityGateCheckResult :=
  if requiredCategories.length = 0 then
    { name := "Required Categories", status := .skipped }
  else
    let failedCategories := requiredCategories.filter
      fun category => (getIssuesInCategory issues category).length > 0
    if failedCategories.length = 0 then
      { name := "Required Categories", status := .passed }
    else
      { name := "Required Categories", status := .failed }

/-- `checkTestCoverage`: skipped without data, otherwise coverage must reach
the minimum. -/
def checkTestCoverage (testCoverage : Option Rat) (minTestCoverage : Rat) :
    QualityGateCheckResult :=
  match testCoverage with
  | none => { name := "Test Coverage", status := .skipped }
  | some coverage =>
    if coverage ≥ minTestCoverage then
      { name := "Test Coverage", status := .passed }
    else
      { name := "Test Coverage", status := .failed }

/-- `checkComplexity`: skipped without data (or an empty map), fails when any
function exceeds the limit. -/
def checkComplexity (complexityByFunction : Option (List (String × Rat)))
    (maxComplexity : Rat) : QualityGateCheckResult :=
  match complexityByFunction with
  | none => { name := "Code Complexity", status := .skipped }
  | some entries =>
    if entries.length = 0 then
      { name := "Code Complexity", status := .skipped }
    else
      let violations := entries.filter fun e => e.2 > maxComplexity
      if violations.length = 0 then
        { name := "Code Complexity", status := .passed }
      else
        { name := "Code Complexity", status := .failed }

/-- `checkDuplication`: skipped without data, fails above the limit. -/
def checkDuplication (duplicationPercentage : Option Rat) (maxDuplication : Rat) :
    QualityGateCheckResult :=
  match duplicationPercentage with
  | none => { name := "Code Duplication", status := .skipped }
  | some duplication =>
    if duplication ≤ maxDuplication then
      { name := "Code Duplication", status := .passed }
    else
      { name := "Code Duplication", status := .failed }

/-- `QualityGateEvaluationInput`. -/
structure QualityGateEvaluationInput where
  issues : List ReviewIssue
  thresholds : QualityGateThresholds
  severityThreshold : ReviewIssueSeverity
  testCoverage : Option Rat := none
  complexityByFunction : Option (List (String × Rat)) := none
  duplicationPercentage : Option Rat := none
deriving DecidableEq, Repr

/-- `QualityGateEvaluationResult` (`summary` and `evaluatedAt` elided: the
summary is a display string derived from the other fields and `evaluatedAt`
reads the wall clock). -/
structure QualityGateEvaluationResult where
  verdict : QualityGateVerdict
  shouldBlockPR : Bool
  checks : List QualityGateCheckResult
  severityCounts : IssueSeverityCounts
  categoryCounts : IssueCategoryCounts
  totalIssues : Nat
deriving DecidableEq, Repr

/-- `evaluateQualityGate` from `quality-gate-evaluator.ts`: runs the five
checks in order and derives the verdict from the failed/passed counts. -/
def evaluateQualityGate (input : QualityGateEvaluationInput) :
    QualityGateEvaluationResult :=
  let checks : List QualityGateCheckResult :=
    [checkSeverityThreshold input.issues input.severityThreshold,
     checkRequiredCategories input.issues input.thresholds.requiredCategories,
     checkTestCoverage input.testCoverage input.thresholds.minTestCoverage,
     checkComplexity input.complexityByFunction input.thresholds.maxComplexity,
     checkDuplication input.duplicationPercentage input.thresholds.maxDuplication]
  let failedChecks := checks.filter fun c => c.status == QualityGateCheckStatus.failed
  let passedChecks := checks.filter fun c => c.status == QualityGateCheckStatus.passed
  if failedChecks.length > 0 then
    { verdict := .failed
      shouldBlockPR := true
      checks := checks
      severityCounts := countIssuesBySeverity input.issues
      categoryCounts := countIssuesByCategory input.issues
      totalIssues := input.issues.length }
  else if passedChecks.length = 0 then
    { verdict := .warning
      shouldBlockPR := false
      checks := checks
      severityCounts := countIssuesBySeverity input.issues
      categoryCounts := countIssuesByCategory input.issues
      totalIssues := input.issues.length }
  else
    { verdict := .passed
      shouldBlockPR := false
      checks := checks
      severityCounts := countIssuesBySeverity input.issues
      categoryCounts := countIssuesByCategory input.issues
      totalIssues := input.issues.length }

/-- `getBlockingIssues` from `quality-gate-evaluator.ts` (the source gives
`requiredCategories` the default value `['security']`; callers relying on the
default pass `[.security]` here). -/
def getBlockingIssues (issues : List ReviewIssue)
    (severityThreshold : ReviewIssueSeverity)
    (requiredCategories : List ReviewIssueCategory) : List ReviewIssue :=
  issues.filter fun issue =>
    isSeverityAtOrAbove issue.severity severityThreshold
      || requiredCategories.contains issue.category

/-- `RefinementService.evaluateRefinement` from `refinement-service.ts`:
true when no blocking issue (by severity alone) is left unaddressed. -/
def evaluateRefinement (originalIssues : List ReviewIssue)
    (addressedIds : List String)
    (severityThreshold : ReviewIssueSeverity) : Bool :=
  let blockingIssues := originalIssues.filter
    fun issue => isSeverityAtOrAbove issue.severity severityThreshold
  let unaddressedBlockingIssues := blockingIssues.filter
    fun issue => !(addressedIds.contains issue.id)
  unaddressedBlockingIssues.length == 0

/-- The rank the specification assigns each severity in the order
`critical > high > medium > low > suggestion` (0 = most severe). -/
def sevRank : ReviewIssueSeverity → Nat
  | .critical => 0
  | .high => 1
  | .medium => 2
  | .low => 3
  | .suggestion => 4

/-! ## Session store (`apps/server/src/lib/review-loop-storage`) -/

/-- Review verdict (`ReviewVerdict`). -/
inductive ReviewVerdict where
  | pass
  | needs_work
  | critical_issues
deriving DecidableEq, Repr

/-- `ReviewResult`: one review invocation, immutable once appended. -/
structure ReviewResult where
  verdict : ReviewVerdict
  issues : List ReviewIssue
  summary : String
  iteration : Nat
  timestamp : String
deriving DecidableEq, Repr

/-- `ReviewLoopState`: the state machine's states. -/
inductive ReviewLoopState where
  | pending_self_review
  | self_reviewing
  | self_review_passed
  | self_review_failed
  | refining
  | pr_created
  | awaiting_pr_feedback
  | addressing_feedback
  | ready_for_human_review
  | approved
  | merged
deriving DecidableEq, Repr

/-- `ReviewLoopSession`: the persisted per-feature record.  Optional
TypeScript fields become `Option`; ISO timestamps are opaque strings. -/
structure ReviewLoopSession where
  featureId : String
  state : ReviewLoopState
  iterations : List ReviewResult
  currentIteration : Nat
  prNumber : Option Nat := none
  prUrl : Option String := none
  startedAt : String
  lastUpdatedAt : String
  completedAt : Option String := none
deriving DecidableEq, Repr

/-- The argument of `updateSession`, mirroring
`Partial<Omit<ReviewLoopSession, 'featureId' | 'startedAt'>>`: a field is
`some v` when the update object names it (for the session's own optional
fields the named value is again an `Option`).  `featureId` and `startedAt`
cannot appear, exactly as in the TypeScript type. -/
structure SessionUpdates where
  state : Option ReviewLoopState := none
  iterations : Option (List ReviewResult) := none
  currentIteration : Option Nat := none
  prNumber : Option (Option Nat) := none
  prUrl : Option (Option String) := none
  lastUpdatedAt : Option String := none
  completedAt : Option (Option String) := none
deriving DecidableEq, Repr

/-- The session store persists one JSON file per feature and every write goes
through write-to-temp-then-atomic-rename under a per-feature lock, so at the
level of one feature the durable state is simply the last fully written
session (or nothing).  The embedding therefore passes the per-feature file
content `Option ReviewLoopSession` explicitly; the `now` argument stands for
`new Date().toISOString()`. -/
def readSession (file : Option ReviewLoopSession) : Option ReviewLoopSession :=
  file

/-- `createSession`: fails when a session already exists, otherwise writes a
fresh session in the given initial state (the source defaults `initialState`
to `pending_self_review`). -/
def createSession (file : Option ReviewLoopSession) (featureId : String)
    (initialState : ReviewLoopState) (now : String) :
    Except String ReviewLoopSession :=
  match file with
  | some _ => .error "Review loop session already exists"
  | none =>
    .ok { featureId := featureId
          state := initialState
          iterations := []
          currentIteration := 0
          startedAt := now
          lastUpdatedAt := now }

/-- `updateSession`: partial merge over the existing session.  The spread
`{ ...existing, ...updates }` takes each field named by the update; the source
then re-forces `featureId` and `startedAt` from the existing session and
overwrites `lastUpdatedAt` with the current time (so an update naming
`lastUpdatedAt` is ignored). -/
def updateSession (file : Option ReviewLoopSession) (updates : SessionUpdates)
    (now : String) : Except String ReviewLoopSession :=
  match file with
  | none => .error "Review loop session not found"
  | some existing =>
    .ok { featureId := existing.featureId
          state := updates.state.getD existing.state
          iterations := updates.iterations.getD existing.iterations
          currentIteration := updates.currentIteration.getD existing.currentIteration
          prNumber := updates.prNumber.getD existing.prNumber
          prUrl := updates.prUrl.getD existing.prUrl
          startedAt := existing.startedAt
          lastUpdatedAt := now
          completedAt := updates.completedAt.getD existing.completedAt }

/-- `transitionState`: an update that names only `state`. -/
def transitionState (file : Option ReviewLoopSession)
    (newState : ReviewLoopState) (now : String) :
    Except String ReviewLoopSession :=
  updateSession file { state := some newState } now

/-- `addReviewResult`: appends to `iterations` and sets `currentIteration`
from the result, refreshing `lastUpdatedAt`. -/
def addReviewResult (file : Option ReviewLoopSession) (result : ReviewResult)
    (now : String) : Except String ReviewLoopSession :=
  match file with
  | none => .error "Review loop session not found"
  | some existing =>
    .ok { existing with
          iterations := existing.iterations ++ [result]
          currentIteration := result.iteration
          lastUpdatedAt := now }

/-- The TypeScript `completeSession` restricts `finalState` to the union type
`'approved' | 'merged'`. -/
inductive CompletedState where
  | approved
  | merged
deriving DecidableEq, Repr

/-- The review-loop state a `CompletedState` stands for. -/
def CompletedState.toState : CompletedState → ReviewLoopState
  | .approved => .approved
  | .merged => .merged

/-- `completeSession`: an update naming `state` and `completedAt`. -/
def completeSession (file : Option ReviewLoopSession)
    (finalState : CompletedState) (now : String) :
    Except String ReviewLoopSession :=
  updateSession file
    { state := some finalState.toState, completedAt := some (some now) } now

/-- `linkPR`: an update naming `prNumber`, `prUrl` and `state`. -/
def linkPR (file : Option ReviewLoopSession) (prNumber : Nat) (prUrl : String)
    (now : String) : Except String ReviewLoopSession :=
  updateSession file
    { prNumber := some (some prNumber)
      prUrl := some (some prUrl)
      state := some .pr_created } now

/-- The invariant claimed of sessions: `completedAt` is set exactly when the
state is `approved` or `merged`. -/
def completedIffTerminal (s : ReviewLoopSession) : Bool :=
  s.completedAt.isSome == (s.state == .approved || s.state == .merged)

/-- A freshly created session transitioned straight to `approved` through
`transitionState` (both operations are exactly the store's). -/
def sessionAfterApproveTransition : Except String ReviewLoopSession :=
  (createSession none "feature-1" .pending_self_review "t0").bind
    fun s => transitionState (some s) .approved "t1"

/-! ## Diff analyzer (`libs/git-utils/src/diff-analyzer.ts`)

The parser walks the diff line by line against a fixed set of anchored
regular expressions.  Each regular expression is rendered below as a total
matching function whose acceptance (and captures, where the parser reads
them) agree with the JavaScript regex, greedy backtracking included. -/

/-- Type of change for a line in the diff. -/
inductive DiffLineChangeType where
  | added
  | removed
  | context
deriving DecidableEq, Repr

/-- A single line in a diff hunk (`DiffLine`). -/
structure DiffLine where
  type : DiffLineChangeType
  oldLineNumber : Option Nat
  newLineNumber : Option Nat
  content : String
deriving DecidableEq, Repr

/-- A contiguous section of changes (`DiffHunk`). -/
structure DiffHunk where
  oldStart : Nat
  oldCount : Nat
  newStart : Nat
  newCount : Nat
  header : Option String := none
  lines : List DiffLine
deriving DecidableEq, Repr

/-- Type of change for a file in the diff. -/
inductive DiffFileChangeType where
  | added
  | modified
  | deleted
  | renamed
  | binary
deriving DecidableEq, Repr

/-- A changed file in the diff (`DiffFile`). -/
structure DiffFile where
  path : String
  oldPath : String
  changeType : DiffFileChangeType
  hunks : List DiffHunk
  isBinary : Bool
deriving DecidableEq, Repr

/-- Summary statistics for a diff (`DiffSummary`). -/
structure DiffSummary where
  filesChanged : Nat
  filesAdded : Nat
  filesModified : Nat
  filesDeleted : Nat
  filesRenamed : Nat
  linesAdded : Nat
  linesRemoved : Nat
deriving DecidableEq, Repr

/-- The complete analyzed diff (`AnalyzedDiff`). -/
structure AnalyzedDiff where
  files : List DiffFile
  summary : DiffSummary
  rawDiff : String
deriving DecidableEq, Repr

/-- Splits the text after `diff --git a/` at the last occurrence of ` b/`
that leaves a nonempty suffix, exactly where the greedy group of
`/^diff --git a\/(.+) b\/(.+)$/` backtracks to. -/
def lastGitPathSplit : List Char → Option (List Char × List Char)
  | [] => none
  | c :: cs =>
    match lastGitPathSplit cs with
    | some (pre, post) => some (c :: pre, post)
    | none =>
      if c = ' ' ∧ cs.take 2 = ['b', '/'] ∧ 2 < cs.length then
        some ([], cs.drop 2)
      else none

/-- `DIFF_FILE_HEADER = /^diff --git a\/(.+) b\/(.+)$/`: both captured paths
must be nonempty. -/
def matchFileHeader (line : String) : Option (String × String) :=
  if line.startsWith "diff --git a/" then
    match lastGitPathSplit (line.drop 13).data with
    | some (pre, post) =>
      if pre = [] then none else some (String.mk pre, String.mk post)
    | none => none
  else none

/-- True when the string is one or more decimal digits. -/
def isDigits (s : String) : Bool :=
  !s.isEmpty && s.all Char.isDigit

/-- `DIFF_NEW_FILE_MODE = /^new file mode \d+$/`. -/
def isNewFileMode (line : String) : Bool :=
  line.startsWith "new file mode " && isDigits (line.drop 14)

/-- `DIFF_DELETED_FILE_MODE = /^deleted file mode \d+$/`. -/
def isDeletedFileMode (line : String) : Bool :=
  line.startsWith "deleted file mode " && isDigits (line.drop 18)

/-- `DIFF_RENAME_FROM = /^rename from (.+)$/`. -/
def matchRenameFrom (line : String) : Option String :=
  if line.startsWith "rename from " ∧ 12 < line.length then
    some (line.drop 12)
  else none

/-- `DIFF_RENAME_TO = /^rename to (.+)$/`. -/
def matchRenameTo (line : String) : Option String :=
  if line.startsWith "rename to " ∧ 10 < line.length then
    some (line.drop 10)
  else none

/-- `DIFF_SIMILARITY = /^similarity index \d+%$/`. -/
def isSimilarityIndex (line : String) : Bool :=
  line.startsWith "similarity index " && line.endsWith "%"
    && isDigits ((line.drop 17).dropRight 1)

/-- The four accepted endings of `DIFF_BINARY_FILE`, each carrying the
mandatory space before the keyword. -/
def binaryLineSuffixes : List String :=
  [" added", " changed", " deleted", " differ"]

/-- `DIFF_BINARY_FILE = /^Binary files? .* (?:added|changed|deleted|differ)$/`
(the two prefixes are mutually exclusive, so the optional `s?` never needs
backtracking across them). -/
def isBinaryLine (line : String) : Bool :=
  if line.startsWith "Binary files " then
    binaryLineSuffixes.any fun suf => (line.drop 13).endsWith suf
  else if line.startsWith "Binary file " then
    binaryLineSuffixes.any fun suf => (line.drop 12).endsWith suf
  else false

/-- `DIFF_OLD_FILE = /^--- (?:a\/)?(.+)$/`: the optional `a/` is consumed
when at least one character remains for the capture. -/
def matchOldFile (line : String) : Option String :=
  if line.startsWith "--- " then
    let rest := line.drop 4
    if rest.isEmpty then none
    else if rest.startsWith "a/" = true ∧ 2 < rest.length then some (rest.drop 2)
    else some rest
  else none

/-- `DIFF_NEW_FILE = /^\+\+\+ (?:b\/)?(.+)$/`. -/
def matchNewFile (line : String) : Option String :=
  if line.startsWith "+++ " then
    let rest := line.drop 4
    if rest.isEmpty then none
    else if rest.startsWith "b/" = true ∧ 2 < rest.length then some (rest.drop 2)
    else some rest
  else none

/-- Longest digit run at the front of the characters, with the rest. -/
def takeDigits : List Char → List Char × List Char
  | [] => ([], [])
  | c :: cs =>
    if c.isDigit then
      let (ds, rest) := takeDigits cs
      (c :: ds, rest)
    else ([], c :: cs)

/-- The decimal value of a digit run (what `parseInt(digits, 10)` yields). -/
def digitsVal (ds : List Char) : Nat :=
  ds.foldl (fun acc c => acc * 10 + (c.toNat - 48)) 0

/-- `(\d+)(?:,(\d+))?`: a mandatory count and an optional comma-separated
second count.  A comma not followed by a digit is left unconsumed, exactly as
the optional regex group declines to match. -/
def parseHunkCounts (cs : List Char) : Option (Nat × Option Nat × List Char) :=
  let (d1, rest1) := takeDigits cs
  if d1 = [] then none
  else
    match rest1 with
    | ',' :: rest2 =>
      let (d2, rest3) := takeDigits rest2
      if d2 = [] then some (digitsVal d1, none, rest1)
      else some (digitsVal d1, some (digitsVal d2), rest3)
    | _ => some (digitsVal d1, none, rest1)

/-- `DIFF_HUNK_HEADER = /^@@ -(\d+)(?:,(\d+))? \+(\d+)(?:,(\d+))? @@(.*)$/`:
returns old start, optional old count, new start, optional new count and the
trailing capture. -/
def parseHunkHeader (line : String) :
    Option (Nat × Option Nat × Nat × Option Nat × String) :=
  match line.data with
  | '@' :: '@' :: ' ' :: '-' :: cs =>
    match parseHunkCounts cs with
    | none => none
    | some (o, oc, rest) =>
      match rest with
      | ' ' :: '+' :: cs2 =>
        match parseHunkCounts cs2 with
        | none => none
        | some (n, nc, rest2) =>
          match rest2 with
          | ' ' :: '@' :: '@' :: tail => some (o, oc, n, nc, String.mk tail)
          | _ => none
      | _ => none
  | _ => none

/-- The parser's running state inside `parseDiff`'s loop: the finished files,
the file and hunk being accumulated, the running line counters and the
pending `rename from` path. -/
structure ParseState where
  files : List DiffFile
  currentFile : Option DiffFile
  currentHunk : Option DiffHunk
  oldLineNum : Nat
  newLineNum : Nat
  renameFrom : String
deriving Repr

/-- Appends the pending hunk to a file when it has at least one line
(the guard `currentHunk && currentHunk.lines.length > 0`). -/
def flushHunk (file : DiffFile) (hunk : Option DiffHunk) : DiffFile :=
  match hunk with
  | some h => if h.lines.length > 0 then { file with hunks := file.hunks ++ [h] } else file
  | none => file

/-- One iteration of `parseDiff`'s `for` loop: the line is tried against the
header patterns in source order; inside a hunk the remaining lines are
classified by their first character, and anything else (including the
`\ No newline at end of file` marker) is skipped. -/
def processLine (st : ParseState) (line : String) : ParseState :=
  match matchFileHeader line with
  | some (oldPath, newPath) =>
    let files :=
      match st.currentFile with
      | some cf => st.files ++ [flushHunk cf st.currentHunk]
      | none => st.files
    { files := files
      currentFile := some
        ({ path := newPath
           oldPath := oldPath
           changeType := .modified
           hunks := []
           isBinary := false } : DiffFile)
      currentHunk := none
      oldLineNum := st.oldLineNum
      newLineNum := st.newLineNum
      renameFrom := "" }
  | none =>
    match st.currentFile with
    | none => st
    | some cf =>
      if isNewFileMode line then
        { st with currentFile := some { cf with changeType := .added } }
      else if isDeletedFileMode line then
        { st with currentFile := some { cf with changeType := .deleted } }
      else
        match matchRenameFrom line with
        | some p => { st with renameFrom := p }
        | none =>
          match matchRenameTo line with
          | some p =>
            let renamedFile : DiffFile :=
              { cf with changeType := .renamed, oldPath := st.renameFrom, path := p }
            { st with currentFile := some renamedFile }
          | none =>
            if isSimilarityIndex line then st
            else if isBinaryLine line then
              { st with currentFile := some { cf with isBinary := true, changeType := .binary } }
            else
              match matchOldFile line with
              | some p =>
                if p = "/dev/null" then
                  { st with currentFile := some { cf with changeType := .added } }
                else st
              | none =>
                match matchNewFile line with
                | some p =>
                  if p = "/dev/null" then
                    { st with currentFile := some { cf with changeType := .deleted } }
                  else st
                | none =>
                  match parseHunkHeader line with
                  | some (o, oc, n, nc, hdr) =>
                    let header := hdr.trim
                    { st with
                      currentFile := some (flushHunk cf st.currentHunk)
                      oldLineNum := o
                      newLineNum := n
                      currentHunk := some
                        ({ oldStart := o
                           oldCount := oc.getD 1
                           newStart := n
                           newCount := nc.getD 1
                           header := if header.isEmpty then none else some header
                           lines := [] } : DiffHunk) }
                  | none =>
                    match st.currentHunk with
                    | none => st
                    | some h =>
                      if line.startsWith "+" then
                        { st with
                          currentHunk := some { h with lines := h.lines ++
                            [{ type := .added
                               oldLineNumber := none
                               newLineNumber := some st.newLineNum
                               content := line.drop 1 }] }
                          newLineNum := st.newLineNum + 1 }
                      else if line.startsWith "-" then
                        { st with
                          currentHunk := some { h with lines := h.lines ++
                            [{ type := .removed
                               oldLineNumber := some st.oldLineNum
                               newLineNumber := none
                               content := line.drop 1 }] }
                          oldLineNum := st.oldLineNum + 1 }
                      else if line.startsWith " " || line == "" then
                        { st with
                          currentHunk := some { h with lines := h.lines ++
                            [{ type := .context
                               oldLineNumber := some st.oldLineNum
                               newLineNumber := some st.newLineNum
                               content := if line.startsWith " " then line.drop 1 else line }] }
                          oldLineNum := st.oldLineNum + 1
                          newLineNum := st.newLineNum + 1 }
                      else st

/-- `calculateSummary`: counts files per change type and added/removed
lines over the triple-nested loop. -/
def calculateSummary (files : List DiffFile) : DiffSummary :=
  let counts : Nat × Nat := files.foldl
    (fun acc file => file.hunks.foldl
      (fun acc2 hunk => hunk.lines.foldl
        (fun acc3 l =>
          match l.type with
          | .added => (acc3.1 + 1, acc3.2)
          | .removed => (acc3.1, acc3.2 + 1)
          | .context => acc3)
        acc2)
      acc)
    (0, 0)
  { filesChanged := files.length
    filesAdded := (files.filter fun f => f.changeType == .added).length
    filesModified := (files.filter fun f => f.changeType == .modified).length
    filesDeleted := (files.filter fun f => f.changeType == .deleted).length
    filesRenamed := (files.filter fun f => f.changeType == .renamed).length
    linesAdded := counts.1
    linesRemoved := counts.2 }

/-- `parseDiff` from `diff-analyzer.ts`: splits on newlines, folds the loop
body over every line, flushes the last file and hunk, and derives the
summary.  The function is total by construction: every helper is a total
Lean function, so no input string can make it fail. -/
def parseDiff (diffContent : String) : AnalyzedDiff :=
  let lines := diffContent.splitOn "\n"
  let st := lines.foldl processLine
    { files := []
      currentFile := none
      currentHunk := none
      oldLineNum := 0
      newLineNum := 0
      renameFrom := "" }
  let files :=
    match st.currentFile with
    | some cf => st.files ++ [flushHunk cf st.currentHunk]
    | none => st.files
  { files := files
    summary := calculateSummary files
    rawDiff := diffContent }

/-- `CodeContextOptions` with the source's destructuring defaults
`{ linesBefore = 3, linesAfter = 3 }`. -/
structure CodeContextOptions where
  linesBefore : Nat := 3
  linesAfter : Nat := 3
deriving DecidableEq, Repr

/-- A range of code with context around changes (`CodeContextRange`). -/
structure CodeContextRange where
  startLine : Nat
  endLine : Nat
  content : String
  addedLines : List Nat
  removedLines : List Nat
deriving DecidableEq, Repr

/-- Code context for one file (`FileCodeContext`). -/
structure FileCodeContext where
  path : String
  ranges : List CodeContextRange
deriving DecidableEq, Repr

/-- The per-hunk body of `extractCodeContext`: the clamped range
`Math.max(1, newStart - linesBefore)` to `newStart + newCount + linesAfter`
(line numbers are non-negative, so truncated `Nat` subtraction under the
`max 1` agrees with JavaScript's signed arithmetic), plus the annotated
content and the added/removed line numbers. -/
def rangeOfHunk (linesBefore linesAfter : Nat) (hunk : DiffHunk) :
    CodeContextRange :=
  let folded : List String × List Nat × List Nat := hunk.lines.foldl
    (fun acc l =>
      match l.type, l.newLineNumber, l.oldLineNumber with
      | .added, some n, _ => (acc.1 ++ ["+ " ++ l.content], acc.2.1 ++ [n], acc.2.2)
      | .removed, _, some o => (acc.1 ++ ["- " ++ l.content], acc.2.1, acc.2.2 ++ [o])
      | _, _, _ => (acc.1 ++ ["  " ++ l.content], acc.2.1, acc.2.2))
    ([], [], [])
  { startLine := max 1 (hunk.newStart - linesBefore)
    endLine := hunk.newStart + hunk.newCount + linesAfter
    content := String.intercalate "\n" folded.1
    addedLines := folded.2.1
    removedLines := folded.2.2 }

/-- `extractCodeContext` from `diff-analyzer.ts`: binary files are skipped,
each hunk yields one range, and a file appears only when it produced at
least one range. -/
def extractCodeContext (analyzedDiff : AnalyzedDiff)
    (options : CodeContextOptions) : List FileCodeContext :=
  analyzedDiff.files.filterMap fun file =>
    if file.isBinary then none
    else
      let ranges := file.hunks.map (rangeOfHunk options.linesBefore options.linesAfter)
      if ranges.length > 0 then some { path := file.path, ranges := ranges }
      else none

/-! ## PR monitors (`pr-feedback-monitor.ts`, `pr-merge-monitor.ts`)

`startMonitoring` is an async method whose external calls (the `gh` CLI
availability probe and the initial PR fetch) are modelled as oracle
arguments; its observable effects are the monitored-PR map after the call,
the events it emits, and whether it launched a polling loop. -/

/-- CI checks status (`ChecksStatus`). -/
inductive ChecksStatus where
  | pending
  | passing
  | failing
deriving DecidableEq, Repr

/-- A PR comment, as far as the monitor logic reads it. -/
structure PRComment where
  id : Nat
  author : String
  body : String
  createdAt : String
  isBot : Bool
deriving DecidableEq, Repr

/-- State of a PR review. -/
inductive PRReviewState where
  | approved
  | changes_requested
  | commented
  | pending
deriving DecidableEq, Repr

/-- A PR review, as far as the monitor logic reads it. -/
structure PRReview where
  id : Nat
  author : String
  state : PRReviewState
  body : Option String := none
  comments : List PRComment := []
  submittedAt : String
deriving DecidableEq, Repr

/-- Structured PR feedback (`PRFeedback`). -/
structure PRFeedback where
  prNumber : Nat
  comments : List PRComment
  reviews : List PRReview
  checksStatus : ChecksStatus
  mergeable : Bool
  requestedChanges : Bool
deriving DecidableEq, Repr

/-- Monitoring status of an entry. -/
inductive MonitorEntryStatus where
  | active
  | paused
  | stopped
deriving DecidableEq, Repr

/-- `MonitoredPRState` of the feedback monitor. -/
structure MonitoredPRState where
  featureId : String
  prNumber : Nat
  prUrl : String
  projectPath : String
  worktreePath : Option String := none
  branch : String
  lastChecked : String
  lastCommentCount : Nat
  lastReviewCount : Nat
  checksStatus : ChecksStatus
  requestedChanges : Bool
  mergeable : Bool
  status : MonitorEntryStatus
  startedAt : String
deriving DecidableEq, Repr

/-- `PRFeedbackMonitorConfig` (numbers that only feed timers stay `Nat`). -/
structure PRFeedbackMonitorConfig where
  enabled : Bool := true
  pollIntervalMs : Nat := 30000
  maxConcurrentPRs : Nat := 10
  notifyOnNewComments : Bool := true
  notifyOnReviewRequested : Bool := true
deriving DecidableEq, Repr

/-- `StartMonitoringOptions` of the feedback monitor. -/
structure StartMonitoringOptions where
  featureId : String
  projectPath : String
  prNumber : Nat
  prUrl : String
  branch : String
  worktreePath : Option String := none
  pollIntervalMs : Option Nat := none
deriving DecidableEq, Repr

/-- The tags of `PRFeedbackMonitorEvent`. -/
inductive PRFeedbackMonitorEventType where
  | pr_monitor_started
  | pr_monitor_new_feedback
  | pr_monitor_checks_changed
  | pr_monitor_state_changed
  | pr_monitor_stopped
  | pr_monitor_error
deriving DecidableEq, Repr

/-- A feedback-monitor event, reduced to the fields the claims read: its
tag, the feature, the PR number and the error text when present. -/
structure PRFeedbackMonitorEvent where
  type : PRFeedbackMonitorEventType
  featureId : String
  prNumber : Option Nat := none
  error : Option String := none
deriving DecidableEq, Repr

/-- What a `startMonitoring` call leaves behind. -/
structure StartMonitoringResult where
  monitoredPRs : List (String × MonitoredPRState)
  events : List PRFeedbackMonitorEvent
  loopStarted : Bool
deriving DecidableEq, Repr

namespace PRFeedbackMonitor

/-- `PRFeedbackMonitor.startMonitoring`: already-monitoring and capacity
checks, the `gh` availability probe, the initial fetch, then the entry is
stored and the polling loop launched.  `monitoredPRs` is the `Map` as an
association list, `ghAvailable` and `initialFetch` are the oracles for the
two awaited external calls, `now` stands for `new Date().toISOString()`. -/
def startMonitoring (monitoredPRs : List (String × MonitoredPRState))
    (config : PRFeedbackMonitorConfig) (opts : StartMonitoringOptions)
    (ghAvailable : Bool) (initialFetch : Except String PRFeedback)
    (now : String) : StartMonitoringResult :=
  if (monitoredPRs.map Prod.fst).contains opts.featureId then
    { monitoredPRs := monitoredPRs, events := [], loopStarted := false }
  else if monitoredPRs.length ≥ config.maxConcurrentPRs then
    { monitoredPRs := monitoredPRs
      events := [{ type := .pr_monitor_error
                   featureId := opts.featureId
                   prNumber := some opts.prNumber
                   error := some "Maximum concurrent PR monitors reached" }]
      loopStarted := false }
  else if ghAvailable = false then
    { monitoredPRs := monitoredPRs
      events := [{ type := .pr_monitor_error
                   featureId := opts.featureId
                   prNumber := some opts.prNumber
                   error := some "GitHub CLI (gh) is not available" }]
      loopStarted := false }
  else
    match initialFetch with
    | .error e =>
      { monitoredPRs := monitoredPRs
        events := [{ type := .pr_monitor_error
                     featureId := opts.featureId
                     prNumber := some opts.prNumber
                     error := some e }]
        loopStarted := false }
    | .ok feedback =>
      let state : MonitoredPRState :=
        { featureId := opts.featureId
          prNumber := opts.prNumber
          prUrl := opts.prUrl
          projectPath := opts.projectPath
          worktreePath := opts.worktreePath
          branch := opts.branch
          lastChecked := now
          lastCommentCount := feedback.comments.length
          lastReviewCount := feedback.reviews.length
          checksStatus := feedback.checksStatus
          requestedChanges := feedback.requestedChanges
          mergeable := feedback.mergeable
          status := .active
          startedAt := now }
      { monitoredPRs := monitoredPRs ++ [(opts.featureId, state)]
        events := [{ type := .pr_monitor_started
                     featureId := opts.featureId
                     prNumber := some opts.prNumber }]
        loopStarted := true }

end PRFeedbackMonitor

/-- GitHub's three PR states as the merge monitor normalizes them. -/
inductive PRState where
  | OPEN
  | MERGED
  | CLOSED
deriving DecidableEq, Repr

/-- `MonitoredPRMergeState` of the merge monitor. -/
structure MonitoredPRMergeState where
  featureId : String
  prNumber : Nat
  prUrl : String
  projectPath : String
  worktreePath : Option String := none
  branch : String
  lastChecked : String
  prState : PRState
  startedAt : String
deriving DecidableEq, Repr

/-- `PRMergeMonitorConfig`. -/
structure PRMergeMonitorConfig where
  enabled : Bool := true
  pollIntervalMs : Nat := 60000
  maxConcurrentPRs : Nat := 20
deriving DecidableEq, Repr

/-- `StartMergeMonitoringOptions`. -/
structure StartMergeMonitoringOptions where
  featureId : String
  projectPath : String
  prNumber : Nat
  prUrl : String
  branch : String
  worktreePath : Option String := none
  pollIntervalMs : Option Nat := none
deriving DecidableEq, Repr

/-- The tags of `PRMergeMonitorEvent`. -/
inductive PRMergeMonitorEventType where
  | pr_merge_monitor_started
  | pr_merge_monitor_stopped
  | pr_merged
  | pr_closed
  | pr_merge_monitor_error
  | pr_merge_pull_started
  | pr_merge_pull_completed
  | pr_merge_pull_failed
deriving DecidableEq, Repr

/-- A merge-monitor event, reduced to the fields the claims read. -/
structure PRMergeMonitorEvent where
  type : PRMergeMonitorEventType
  featureId : String
  prNumber : Option Nat := none
  error : Option String := none
deriving DecidableEq, Repr

/-- What a merge-monitor `startMonitoring` call leaves behind. -/
structure StartMergeMonitoringResult where
  monitoredPRs : List (String × MonitoredPRMergeState)
  events : List PRMergeMonitorEvent
  loopStarted : Bool
deriving DecidableEq, Repr

namespace PRMergeMonitor

/-- `PRMergeMonitor.startMonitoring`: the same precondition ladder as the
feedback monitor, then the initial `gh pr view` state.  A PR already `MERGED`
is handled immediately by `handlePRMerged` (feature-status update, merged
event and best-effort pull, all driven by further external calls whose
emissions enter through the `mergedHandlerEvents` oracle) and no entry is
stored; a `CLOSED` PR emits `pr_closed` and stores nothing; an `OPEN` PR is
stored and its polling loop launched. -/
def startMonitoring (monitoredPRs : List (String × MonitoredPRMergeState))
    (config : PRMergeMonitorConfig) (opts : StartMergeMonitoringOptions)
    (ghAvailable : Bool) (initialFetch : Except String PRState)
    (mergedHandlerEvents : List PRMergeMonitorEvent)
    (now : String) : StartMergeMonitoringResult :=
  if (monitoredPRs.map Prod.fst).contains opts.featureId then
    { monitoredPRs := monitoredPRs, events := [], loopStarted := false }
  else if monitoredPRs.length ≥ config.maxConcurrentPRs then
    { monitoredPRs := monitoredPRs
      events := [{ type := .pr_merge_monitor_error
                   featureId := opts.featureId
                   prNumber := some opts.prNumber
                   error := some "Maximum concurrent PR merge monitors reached" }]
      loopStarted := false }
  else if ghAvailable = false then
    { monitoredPRs := monitoredPRs
      events := [{ type := .pr_merge_monitor_error
                   featureId := opts.featureId
                   prNumber := some opts.prNumber
                   error := some "GitHub CLI (gh) is not available" }]
      loopStarted := false }
  else
    match initialFetch with
    | .error e =>
      { monitoredPRs := monitoredPRs
        events := [{ type := .pr_merge_monitor_error
                     featureId := opts.featureId
                     prNumber := some opts.prNumber
                     error := some e }]
        loopStarted := false }
    | .ok .MERGED =>
      { monitoredPRs := monitoredPRs
        events := mergedHandlerEvents
        loopStarted := false }
    | .ok .CLOSED =>
      { monitoredPRs := monitoredPRs
        events := [{ type := .pr_closed
                     featureId := opts.featureId
                     prNumber := some opts.prNumber }]
        loopStarted := false }
    | .ok .OPEN =>
      let state : MonitoredPRMergeState :=
        { featureId := opts.featureId
          prNumber := opts.prNumber
          prUrl := opts.prUrl
          projectPath := opts.projectPath
          worktreePath := opts.worktreePath
          branch := opts.branch
          lastChecked := now
          prState := .OPEN
          startedAt := now }
      { monitoredPRs := monitoredPRs ++ [(opts.featureId, state)]
        events := [{ type := .pr_merge_monitor_started
                     featureId := opts.featureId
                     prNumber := some opts.prNumber }]
        loopStarted := true }

end PRMergeMonitor

/-! ## Concrete instances used by counterexamples and witnesses -/

/-- An issue below the `medium` severity threshold but in the required
category `security`. -/
def lowSecurityIssue : ReviewIssue :=
  { id := "issue-1"
    severity := .low
    category := .security
    description := "unsanitized user input reaches the shell" }

/-- A `critical`-severity `security` issue. -/
def criticalSecurityIssue : ReviewIssue :=
  { id := "sec-1"
    severity := .critical
    category := .security
    description := "possible sql injection in the search route" }

/-- The evaluation input of the critical-security scenario: one critical
security issue, default thresholds, severity threshold `medium`, no metrics. -/
def criticalSecurityInput : QualityGateEvaluationInput :=
  { issues := [criticalSecurityIssue]
    thresholds := DEFAULT_QUALITY_GATE_THRESHOLDS
    severityThreshold := .medium }

/-- A session as `createSession` writes it. -/
def demoSession : ReviewLoopSession :=
  { featureId := "feature-1"
    state := .pending_self_review
    iterations := []
    currentIteration := 0
    startedAt := "t0"
    lastUpdatedAt := "t0" }

/-- An update naming only `state`. -/
def demoUpdates : SessionUpdates :=
  { state := some .self_reviewing }

/-- What `updateSession demoSession demoUpdates "t1"` produces. -/
def demoUpdatedSession : ReviewLoopSession :=
  { demoSession with state := .self_reviewing, lastUpdatedAt := "t1" }

/-- A hunk starting at line 10 of the new file and covering 3 new lines, so
its last line in the new file is 12. -/
def sampleHunk : DiffHunk :=
  { oldStart := 10
    oldCount := 2
    newStart := 10
    newCount := 3
    lines :=
      [{ type := .added, oldLineNumber := none, newLineNumber := some 10,
         content := "const x = 1;" },
       { type := .context, oldLineNumber := some 10, newLineNumber := some 11,
         content := "const y = 2;" },
       { type := .context, oldLineNumber := some 11, newLineNumber := some 12,
         content := "return x + y;" }] }

/-- A non-binary modified file holding `sampleHunk`. -/
def sampleFile : DiffFile :=
  { path := "src/app.ts"
    oldPath := "src/app.ts"
    changeType := .modified
    hunks := [sampleHunk]
    isBinary := false }

/-- An analyzed diff holding `sampleFile`. -/
def sampleAnalyzedDiff : AnalyzedDiff :=
  { files := [sampleFile]
    summary := calculateSummary [sampleFile]
    rawDiff := "" }

/-- A feedback-monitor map entry for a feature already being monitored. -/
def demoMonitoredEntry : MonitoredPRState :=
  { featureId := "feature-0"
    prNumber := 1
    prUrl := "https://example.invalid/pr/1"
    projectPath := "/proj"
    branch := "main"
    lastChecked := "t0"
    lastCommentCount := 0
    lastReviewCount := 0
    checksStatus := .pending
    requestedChanges := false
    mergeable := false
    status := .active
    startedAt := "t0" }

/-- A merge-monitor map entry for a feature already being monitored. -/
def demoMergeEntry : MonitoredPRMergeState :=
  { featureId := "feature-0"
    prNumber := 1
    prUrl := "https://example.invalid/pr/1"
    projectPath := "/proj"
    branch := "main"
    lastChecked := "t0"
    prState := .OPEN
    startedAt := "t0" }

/-- Start-monitoring options for a feature not yet monitored. -/
def demoStartOptions : StartMonitoringOptions :=
  { featureId := "feature-1"
    projectPath := "/proj"
    prNumber := 7
    prUrl := "https://example.invalid/pr/7"
    branch := "feature-1-branch" }

/-- Merge-monitor options for a feature not yet monitored. -/
def demoMergeOptions : StartMergeMonitoringOptions :=
  { featureId := "feature-1"
    projectPath := "/proj"
    prNumber := 7
    prUrl := "https://example.invalid/pr/7"
    branch := "feature-1-branch" }

/-- A feedback-monitor configuration allowing a single concurrent monitor. -/
def capacityOneFeedbackConfig : PRFeedbackMonitorConfig :=
  { maxConcurrentPRs := 1 }

/-- A merge-monitor configuration allowing a single concurrent monitor. -/
def capacityOneMergeConfig : PRMergeMonitorConfig :=
  { maxConcurrentPRs := 1 }

end AutomakerLoop

namespace AutomakerLoop

/-! ## Helper lemmas -/

/-- A filtered list has positive length exactly when some element satisfies
the predicate. -/
theorem filter_length_pos_iff_any {α : Type} (l : List α) (p : α → Bool) :
    0 < (l.filter p).length ↔ l.any p = true := by
  rw [List.length_pos, Ne, List.filter_eq_nil_iff, List.any_eq_true]
  constructor
  · intro h
    by_contra hn
    push_neg at hn
    exact h fun a ha => by
      intro hpa
      exact absurd hpa (by simpa using hn a ha)
  · rintro ⟨x, hx, hpx⟩ h
    exact h x hx hpx

/-- Every quality-gate check status is passed, failed or skipped. -/
theorem checkStatus_trichotomy (s : QualityGateCheckStatus) :
    s = .passed ∨ s = .failed ∨ s = .skipped := by
  cases s <;> simp

/-- `checkSeverityThreshold` never skips: its status is passed or failed. -/
theorem checkSeverityThreshold_not_skipped (issues : List ReviewIssue)
    (t : ReviewIssueSeverity) :
    (checkSeverityThreshold issues t).status = .passed ∨
      (checkSeverityThreshold issues t).status = .failed := by
  unfold checkSeverityThreshold
  by_cases h : countIssuesAtOrAboveSeverity issues t = 0 <;> simp [h]

/-- The checks list `evaluateQualityGate` returns: the five checks in source
order. -/
theorem evaluateQualityGate_checks (input : QualityGateEvaluationInput) :
    (evaluateQualityGate input).checks =
      [checkSeverityThreshold input.issues input.severityThreshold,
       checkRequiredCategories input.issues input.thresholds.requiredCategories,
       checkTestCoverage input.testCoverage input.thresholds.minTestCoverage,
       checkComplexity input.complexityByFunction input.thresholds.maxComplexity,
       checkDuplication input.duplicationPercentage input.thresholds.maxDuplication] := by
  simp only [evaluateQualityGate]
  split
  · rfl
  · split <;> rfl

/-- The verdict and blocking flag of `evaluateQualityGate`, characterized
over its own checks list. -/
theorem evaluateQualityGate_core (input : QualityGateEvaluationInput) :
    ((evaluateQualityGate input).verdict =
      if (evaluateQualityGate input).checks.any
          (fun c => c.status == QualityGateCheckStatus.failed) then .failed
      else if (evaluateQualityGate input).checks.any
          (fun c => c.status == QualityGateCheckStatus.passed) then .passed
      else .warning) ∧
    ((evaluateQualityGate input).shouldBlockPR =
      (evaluateQualityGate input).checks.any
        (fun c => c.status == QualityGateCheckStatus.failed)) := by
  rw [evaluateQualityGate_checks]
  simp only [evaluateQualityGate]
  generalize
    [checkSeverityThreshold input.issues input.severityThreshold,
     checkRequiredCategories input.issues input.thresholds.requiredCategories,
     checkTestCoverage input.testCoverage input.thresholds.minTestCoverage,
     checkComplexity input.complexityByFunction input.thresholds.maxComplexity,
     checkDuplication input.duplicationPercentage input.thresholds.maxDuplication] = L
  by_cases hf : 0 < (L.filter fun c => c.status == QualityGateCheckStatus.failed).length
  · rw [if_pos hf, if_pos ((filter_length_pos_iff_any L _).mp hf)]
    exact ⟨rfl, ((filter_length_pos_iff_any L _).mp hf).symm⟩
  · have hnof : L.any (fun c => c.status == QualityGateCheckStatus.failed) = false :=
      Bool.eq_false_iff.mpr fun h => hf ((filter_length_pos_iff_any L _).mpr h)
    rw [if_neg hf]
    by_cases hp0 : (L.filter fun c => c.status == QualityGateCheckStatus.passed).length = 0
    · have hnop : L.any (fun c => c.status == QualityGateCheckStatus.passed) = false :=
        Bool.eq_false_iff.mpr fun h => by
          have := (filter_length_pos_iff_any L _).mpr h
          omega
      rw [if_pos hp0, if_neg (by simp [hnof]), if_neg (by simp [hnop])]
      exact ⟨rfl, hnof.symm⟩
    · have hanyp := (filter_length_pos_iff_any L _).mp (Nat.pos_of_ne_zero hp0)
      rw [if_neg hp0, if_neg (by simp [hnof]), if_pos hanyp]
      exact ⟨rfl, hnof.symm⟩

/-- With no failed and no passed check among the five, every check is
skipped. -/
theorem no_failed_no_passed_all_skipped (l : List QualityGateCheckResult)
    (hf : l.any (fun c => c.status == QualityGateCheckStatus.failed) = false)
    (hp : l.any (fun c => c.status == QualityGateCheckStatus.passed) = false) :
    l.all (fun c => c.status == QualityGateCheckStatus.skipped) = true := by
  rw [List.all_eq_true]
  intro c hc
  have hcf := (List.any_eq_false.mp hf) c hc
  have hcp := (List.any_eq_false.mp hp) c hc
  rcases checkStatus_trichotomy c.status with h | h | h
  · exact absurd (by rw [h]; decide) hcp
  · exact absurd (by rw [h]; decide) hcf
  · rw [h]; decide

/-! ## Claim theorems -/

/-- Claim C1: `evaluateQualityGate` runs five checks and follows the verdict
rule: at least one failed check gives verdict `failed` with
`shouldBlockPR = true`; no failed and no passed check gives `warning` without
blocking (and indeed all five checks are skipped); no failed but some passed
check gives `passed` without blocking. -/
theorem evaluateQualityGate_verdict_rule (input : QualityGateEvaluationInput) :
    ((evaluateQualityGate input).checks.length = 5) ∧
    ((evaluateQualityGate input).checks.any
        (fun c => c.status == QualityGateCheckStatus.failed) = true →
      (evaluateQualityGate input).verdict = .failed ∧
        (evaluateQualityGate input).shouldBlockPR = true) ∧
    ((evaluateQualityGate input).checks.any
        (fun c => c.status == QualityGateCheckStatus.failed) = false ∧
      (evaluateQualityGate input).checks.any
        (fun c => c.status == QualityGateCheckStatus.passed) = false →
      (evaluateQualityGate input).verdict = .warning ∧
        (evaluateQualityGate input).shouldBlockPR = false ∧
        (evaluateQualityGate input).checks.all
          (fun c => c.status == QualityGateCheckStatus.skipped) = true) ∧
    ((evaluateQualityGate input).checks.any
        (fun c => c.status == QualityGateCheckStatus.failed) = false ∧
      (evaluateQualityGate input).checks.any
        (fun c => c.status == QualityGateCheckStatus.passed) = true →
      (evaluateQualityGate input).verdict = .passed ∧
        (evaluateQualityGate input).shouldBlockPR = false) := by
  obtain ⟨hv, hb⟩ := evaluateQualityGate_core input
  refine ⟨by rw [evaluateQualityGate_checks]; rfl, ?_, ?_, ?_⟩
  · intro h
    rw [hv, if_pos h, hb, h]
    exact ⟨rfl, rfl⟩
  · rintro ⟨h1, h2⟩
    rw [hv, if_neg (by simp [h1]), if_neg (by simp [h2]), hb, h1]
    exact ⟨rfl, rfl, no_failed_no_passed_all_skipped _ h1 h2⟩
  · rintro ⟨h1, h2⟩
    rw [hv, if_neg (by simp [h1]), if_pos h2, hb, h1]
    exact ⟨rfl, rfl⟩

/-- Claim C10: `evaluateQualityGate` never returns the verdict `warning`,
because the severity-threshold check only ever passes or fails, so an
evaluation with zero failed checks always has at least one passed check. -/
theorem evaluateQualityGate_never_warning (input : QualityGateEvaluationInput) :
    ((evaluateQualityGate input).verdict = .failed ∨
      (evaluateQualityGate input).verdict = .passed) ∧
    ((checkSeverityThreshold input.issues input.severityThreshold).status =
        .passed ∨
      (checkSeverityThreshold input.issues input.severityThreshold).status =
        .failed) := by
  obtain ⟨hv, -⟩ := evaluateQualityGate_core input
  refine ⟨?_, checkSeverityThreshold_not_skipped input.issues input.severityThreshold⟩
  by_cases hf : (evaluateQualityGate input).checks.any
      (fun c => c.status == QualityGateCheckStatus.failed) = true
  · left
    rw [hv, if_pos hf]
  · have hnof := Bool.eq_false_iff.mpr hf
    by_cases hp : (evaluateQualityGate input).checks.any
        (fun c => c.status == QualityGateCheckStatus.passed) = true
    · right
      rw [hv, if_neg (by simp [hnof]), if_pos hp]
    · exfalso
      have hnop := Bool.eq_false_iff.mpr hp
      have hall := no_failed_no_passed_all_skipped _ hnof hnop
      have hmem : checkSeverityThreshold input.issues input.severityThreshold ∈
          (evaluateQualityGate input).checks := by
        rw [evaluateQualityGate_checks]
        exact List.mem_cons_self _ _
      have hskip := (List.all_eq_true.mp hall) _ hmem
      rcases checkSeverityThreshold_not_skipped input.issues input.severityThreshold
        with h | h <;> rw [h] at hskip <;> exact absurd hskip (by decide)

/-- Claim C6: `isSeverityAtOrAbove` is a total order on the five severities
matching `critical > high > medium > low > suggestion`: the relation is total,
it is symmetric at a pair exactly when the two severities are equal, and it
holds exactly when the first severity's rank in the specified order is at most
the second's. -/
theorem isSeverityAtOrAbove_total_order :
    ∀ s1 s2 : ReviewIssueSeverity,
      (isSeverityAtOrAbove s1 s2 = true ∨ isSeverityAtOrAbove s2 s1 = true) ∧
      ((isSeverityAtOrAbove s1 s2 = isSeverityAtOrAbove s2 s1) ↔ s1 = s2) ∧
      (isSeverityAtOrAbove s1 s2 = true ↔ sevRank s1 ≤ sevRank s2) := by
  intro s1 s2
  cases s1 <;> cases s2 <;> decide

/-- Claim C2, counterexample: `evaluateRefinement` answers `true` for an
unaddressed issue that is blocking per the claim (its category `security` is
required by default) but lies below the severity threshold — the claimed
equivalence fails at this input. -/
theorem evaluateRefinement_ignores_required_categories_cex :
    evaluateRefinement [lowSecurityIssue] [] .medium = true ∧
    (getBlockingIssues [lowSecurityIssue] .medium
        [ReviewIssueCategory.security]).contains lowSecurityIssue = true ∧
    ([] : List String).contains lowSecurityIssue.id = false := by
  decide

/-- Claim C2, amended: `evaluateRefinement` returns `true` exactly when every
issue whose severity is at or above the threshold has its id among the
addressed ids; issues that are blocking only through a required category are
not consulted. -/
theorem evaluateRefinement_iff_severity_addressed
    (originalIssues : List ReviewIssue) (addressedIds : List String)
    (severityThreshold : ReviewIssueSeverity) :
    evaluateRefinement originalIssues addressedIds severityThreshold = true ↔
      ∀ issue ∈ originalIssues,
        isSeverityAtOrAbove issue.severity severityThreshold = true →
          issue.id ∈ addressedIds := by
  simp [evaluateRefinement, List.length_eq_zero, List.filter_eq_nil_iff,
    List.mem_filter]
  constructor
  · intro h issue hmem hsev
    by_contra hnot
    have hf := h issue hmem hnot
    rw [hsev] at hf
    exact absurd hf (by decide)
  · intro h issue hmem hnot
    cases hb : isSeverityAtOrAbove issue.severity severityThreshold
    · rfl
    · exact absurd (h issue hmem hb) hnot

/-- Claim C5: with an issue of severity `critical` and category `security`
among the issues, severity threshold `medium` and the default thresholds
(whose required categories are `[security]`), the gate blocks the PR and both
the Severity Threshold check and the Required Categories check fail. -/
theorem qualityGate_critical_security_scenario
    (input : QualityGateEvaluationInput) (i : ReviewIssue)
    (hmem : i ∈ input.issues) (hsev : i.severity = .critical)
    (hcat : i.category = .security)
    (hth : input.severityThreshold = .medium)
    (hdef : input.thresholds = DEFAULT_QUALITY_GATE_THRESHOLDS) :
    (evaluateQualityGate input).shouldBlockPR = true ∧
    ((evaluateQualityGate input).checks.map fun c => (c.name, c.status)).take 2 =
      [("Severity Threshold", QualityGateCheckStatus.failed),
       ("Required Categories", QualityGateCheckStatus.failed)] := by
  have hc1 : checkSeverityThreshold input.issues input.severityThreshold =
      { name := "Severity Threshold", status := .failed } := by
    rw [hth]
    unfold checkSeverityThreshold
    have hfmem : i ∈ input.issues.filter
        (fun issue => isSeverityAtOrAbove issue.severity .medium) := by
      rw [List.mem_filter]
      exact ⟨hmem, by rw [hsev]; decide⟩
    have hne : countIssuesAtOrAboveSeverity input.issues .medium ≠ 0 := by
      unfold countIssuesAtOrAboveSeverity
      intro h0
      rw [List.length_eq_zero] at h0
      rw [h0] at hfmem
      exact absurd hfmem (List.not_mem_nil _)
    rw [if_neg hne]
  have hcatmem : i ∈ getIssuesInCategory input.issues .security := by
    unfold getIssuesInCategory
    rw [List.mem_filter]
    exact ⟨hmem, by rw [hcat]; decide⟩
  have hcatpos : 0 < (getIssuesInCategory input.issues ReviewIssueCategory.security).length :=
    List.length_pos.mpr (List.ne_nil_of_mem hcatmem)
  have hc2 : checkRequiredCategories input.issues input.thresholds.requiredCategories =
      { name := "Required Categories", status := .failed } := by
    rw [hdef]
    show checkRequiredCategories input.issues [ReviewIssueCategory.security] = _
    unfold checkRequiredCategories
    rw [if_neg (by decide)]
    have hfail : ([ReviewIssueCategory.security].filter fun category =>
        decide ((getIssuesInCategory input.issues category).length > 0)) =
        [ReviewIssueCategory.security] := by
      simp [List.filter_cons, hcatpos]
    rw [if_neg (by rw [hfail]; decide)]
  obtain ⟨-, hb⟩ := evaluateQualityGate_core input
  have hchecks := evaluateQualityGate_checks input
  have hany : (evaluateQualityGate input).checks.any
      (fun c => c.status == QualityGateCheckStatus.failed) = true := by
    rw [hchecks]
    refine List.any_eq_true.mpr ⟨_, List.mem_cons_self _ _, ?_⟩
    rw [hc1]
    rfl
  refine ⟨by rw [hb, hany], ?_⟩
  rw [hchecks, hc1, hc2]
  rfl

/-- Claim C5, witness: the scenario at the concrete one-issue input. -/
theorem qualityGate_critical_security_scenario_witness :
    (evaluateQualityGate criticalSecurityInput).shouldBlockPR = true ∧
    ((evaluateQualityGate criticalSecurityInput).checks.map
        fun c => (c.name, c.status)).take 2 =
      [("Severity Threshold", QualityGateCheckStatus.failed),
       ("Required Categories", QualityGateCheckStatus.failed)] :=
  qualityGate_critical_security_scenario criticalSecurityInput
    criticalSecurityIssue (List.mem_cons_self _ _) rfl rfl rfl rfl

/-- Claim C3, counterexample: transitioning a fresh session to `approved`
through `transitionState` yields a session whose state is terminal but whose
`completedAt` is unset, so the invariant does not hold across every
session-store operation. -/
theorem transitionState_breaks_completedAt_invariant :
    sessionAfterApproveTransition.map completedIffTerminal = .ok false ∧
    sessionAfterApproveTransition.map (fun s => s.state) = .ok .approved ∧
    sessionAfterApproveTransition.map (fun s => s.completedAt) = .ok none :=
  ⟨rfl, rfl, rfl⟩

/-- Claim C3, amended: the invariant `completedAt set iff state terminal`
holds for the sessions `completeSession` and `createSession` (in its default
initial state) produce, and `addReviewResult` preserves it; it is not
enforced by `transitionState`/`updateSession`, which can move a session into
`approved` or `merged` without setting `completedAt`. -/
theorem completedAt_invariant_guarded_ops (file : Option ReviewLoopSession)
    (finalState : CompletedState) (featureId now t0 : String)
    (result : ReviewResult) :
    (∀ s, completeSession file finalState now = .ok s →
      completedIffTerminal s = true) ∧
    (∀ s, createSession none featureId .pending_self_review t0 = .ok s →
      completedIffTerminal s = true) ∧
    (∀ s0 s, file = some s0 → completedIffTerminal s0 = true →
      addReviewResult file result now = .ok s →
      completedIffTerminal s = true) := by
  refine ⟨?_, ?_, ?_⟩
  · intro s hs
    cases file with
    | none => exact absurd hs (by simp [completeSession, updateSession])
    | some s0 =>
      simp only [completeSession, updateSession] at hs
      have h2 := Except.ok.inj hs
      subst h2
      cases finalState <;> rfl
  · intro s hs
    simp only [createSession] at hs
    have h2 := Except.ok.inj hs
    subst h2
    rfl
  · intro s0 s hfile hinv hs
    subst hfile
    simp only [addReviewResult] at hs
    have h2 := Except.ok.inj hs
    subst h2
    exact hinv

/-- Claim C4: `updateSession` keeps `featureId` and `startedAt`, takes each
field named by the update, keeps every other field, refreshes
`lastUpdatedAt`, and the stored session read back is exactly the returned
value. -/
theorem updateSession_frame (s : ReviewLoopSession) (updates : SessionUpdates)
    (now : String) (s2 : ReviewLoopSession)
    (h : updateSession (some s) updates now = .ok s2) :
    s2.featureId = s.featureId ∧
    s2.startedAt = s.startedAt ∧
    s2.state = updates.state.getD s.state ∧
    s2.iterations = updates.iterations.getD s.iterations ∧
    s2.currentIteration = updates.currentIteration.getD s.currentIteration ∧
    s2.prNumber = updates.prNumber.getD s.prNumber ∧
    s2.prUrl = updates.prUrl.getD s.prUrl ∧
    s2.completedAt = updates.completedAt.getD s.completedAt ∧
    s2.lastUpdatedAt = now ∧
    readSession (some s2) = some s2 := by
  simp only [updateSession] at h
  have h2 := Except.ok.inj h
  subst h2
  exact ⟨rfl, rfl, rfl, rfl, rfl, rfl, rfl, rfl, rfl, rfl⟩

/-- Claim C4, witness: the frame property at a concrete session and update. -/
theorem updateSession_frame_witness :
    demoUpdatedSession.featureId = demoSession.featureId ∧
    demoUpdatedSession.startedAt = demoSession.startedAt ∧
    demoUpdatedSession.state = demoUpdates.state.getD demoSession.state ∧
    demoUpdatedSession.iterations = demoUpdates.iterations.getD demoSession.iterations ∧
    demoUpdatedSession.currentIteration =
      demoUpdates.currentIteration.getD demoSession.currentIteration ∧
    demoUpdatedSession.prNumber = demoUpdates.prNumber.getD demoSession.prNumber ∧
    demoUpdatedSession.prUrl = demoUpdates.prUrl.getD demoSession.prUrl ∧
    demoUpdatedSession.completedAt = demoUpdates.completedAt.getD demoSession.completedAt ∧
    demoUpdatedSession.lastUpdatedAt = "t1" ∧
    readSession (some demoUpdatedSession) = some demoUpdatedSession :=
  updateSession_frame demoSession demoUpdates "t1" demoUpdatedSession rfl

/-- Claim C8: for either monitor, a `startMonitoring` call for a feature not
yet monitored while the monitored-PR map is at `maxConcurrentPRs` emits
exactly one monitor-error event, leaves the map unchanged and starts no
polling loop. -/
theorem startMonitoring_capacity_check
    (m1 : List (String × MonitoredPRState)) (cfg1 : PRFeedbackMonitorConfig)
    (o1 : StartMonitoringOptions) (gh1 : Bool)
    (f1 : Except String PRFeedback) (now1 : String)
    (m2 : List (String × MonitoredPRMergeState)) (cfg2 : PRMergeMonitorConfig)
    (o2 : StartMergeMonitoringOptions) (gh2 : Bool)
    (f2 : Except String PRState) (me : List PRMergeMonitorEvent) (now2 : String)
    (hnew1 : (m1.map Prod.fst).contains o1.featureId = false)
    (hfull1 : m1.length = cfg1.maxConcurrentPRs)
    (hnew2 : (m2.map Prod.fst).contains o2.featureId = false)
    (hfull2 : m2.length = cfg2.maxConcurrentPRs) :
    ((PRFeedbackMonitor.startMonitoring m1 cfg1 o1 gh1 f1 now1).monitoredPRs = m1 ∧
     (PRFeedbackMonitor.startMonitoring m1 cfg1 o1 gh1 f1 now1).loopStarted = false ∧
     (PRFeedbackMonitor.startMonitoring m1 cfg1 o1 gh1 f1 now1).events.map
        (fun e => e.type) = [.pr_monitor_error]) ∧
    ((PRMergeMonitor.startMonitoring m2 cfg2 o2 gh2 f2 me now2).monitoredPRs = m2 ∧
     (PRMergeMonitor.startMonitoring m2 cfg2 o2 gh2 f2 me now2).loopStarted = false ∧
     (PRMergeMonitor.startMonitoring m2 cfg2 o2 gh2 f2 me now2).events.map
        (fun e => e.type) = [.pr_merge_monitor_error]) := by
  constructor
  · unfold PRFeedbackMonitor.startMonitoring
    rw [if_neg (by rw [hnew1]; decide), if_pos hfull1.symm.le]
    exact ⟨rfl, rfl, rfl⟩
  · unfold PRMergeMonitor.startMonitoring
    rw [if_neg (by rw [hnew2]; decide), if_pos hfull2.symm.le]
    exact ⟨rfl, rfl, rfl⟩

/-- The line-level fold of `calculateSummary` counts added and removed
lines. -/
theorem lines_foldl_count (lines : List DiffLine) (acc : Nat × Nat) :
    lines.foldl
      (fun acc3 l =>
        match l.type with
        | .added => (acc3.1 + 1, acc3.2)
        | .removed => (acc3.1, acc3.2 + 1)
        | .context => acc3)
      acc =
    (acc.1 + lines.countP (fun l => l.type == DiffLineChangeType.added),
     acc.2 + lines.countP (fun l => l.type == DiffLineChangeType.removed)) := by
  induction lines generalizing acc with
  | nil => simp
  | cons l ls ih =>
    rw [List.foldl_cons, ih]
    cases h : l.type <;>
      simp [List.countP_cons, h, Prod.ext_iff] <;> omega

/-- The hunk-level fold of `calculateSummary` counts over the concatenated
hunk lines. -/
theorem hunks_foldl_count (hunks : List DiffHunk) (acc : Nat × Nat) :
    hunks.foldl
      (fun acc2 hunk => hunk.lines.foldl
        (fun acc3 l =>
          match l.type with
          | .added => (acc3.1 + 1, acc3.2)
          | .removed => (acc3.1, acc3.2 + 1)
          | .context => acc3)
        acc2)
      acc =
    (acc.1 + (hunks.flatMap fun h => h.lines).countP
        (fun l => l.type == DiffLineChangeType.added),
     acc.2 + (hunks.flatMap fun h => h.lines).countP
        (fun l => l.type == DiffLineChangeType.removed)) := by
  induction hunks generalizing acc with
  | nil => simp
  | cons h hs ih =>
    rw [List.foldl_cons, ih, lines_foldl_count, List.flatMap_cons,
      List.countP_append, List.countP_append]
    simp [Prod.ext_iff]
    omega

/-- The file-level fold of `calculateSummary` counts over all lines of all
hunks of all files. -/
theorem files_foldl_count (files : List DiffFile) (acc : Nat × Nat) :
    files.foldl
      (fun acc1 file => file.hunks.foldl
        (fun acc2 hunk => hunk.lines.foldl
          (fun acc3 l =>
            match l.type with
            | .added => (acc3.1 + 1, acc3.2)
            | .removed => (acc3.1, acc3.2 + 1)
            | .context => acc3)
          acc2)
        acc1)
      acc =
    (acc.1 + ((files.flatMap fun f => f.hunks).flatMap fun h => h.lines).countP
        (fun l => l.type == DiffLineChangeType.added),
     acc.2 + ((files.flatMap fun f => f.hunks).flatMap fun h => h.lines).countP
        (fun l => l.type == DiffLineChangeType.removed)) := by
  induction files generalizing acc with
  | nil => simp
  | cons f fs ih =>
    rw [List.foldl_cons, ih, hunks_foldl_count, List.flatMap_cons,
      List.flatMap_append, List.countP_append, List.countP_append]
    simp [Prod.ext_iff]
    omega

/-- `calculateSummary` reports exactly the number of added and removed lines
present in its input. -/
theorem calculateSummary_lines (files : List DiffFile) :
    (calculateSummary files).linesAdded =
      ((files.flatMap fun f => f.hunks).flatMap fun h => h.lines).countP
        (fun l => l.type == DiffLineChangeType.added) ∧
    (calculateSummary files).linesRemoved =
      ((files.flatMap fun f => f.hunks).flatMap fun h => h.lines).countP
        (fun l => l.type == DiffLineChangeType.removed) := by
  unfold calculateSummary
  rw [files_foldl_count]
  exact ⟨by simp, by simp⟩

/-- Claim C7: `parseDiff` is total — it is a total Lean function of the input
string, built from total helpers, so no input can make it fail — and the
summary's added/removed line counts equal the number of `added`/`removed`
`DiffLine` entries across all hunks of all returned files. -/
theorem parseDiff_summary_line_counts (input : String) :
    (parseDiff input).summary.linesAdded =
      (((parseDiff input).files.flatMap fun f => f.hunks).flatMap
          fun h => h.lines).countP
        (fun l => l.type == DiffLineChangeType.added) ∧
    (parseDiff input).summary.linesRemoved =
      (((parseDiff input).files.flatMap fun f => f.hunks).flatMap
          fun h => h.lines).countP
        (fun l => l.type == DiffLineChangeType.removed) := by
  have hs : (parseDiff input).summary = calculateSummary (parseDiff input).files := rfl
  rw [hs]
  exact calculateSummary_lines _

/-- Claim C9, counterexample: on a one-hunk non-binary file with
`newStart = 10` and `newCount = 3` (so its last new-file line is 12) and the
default context options, the produced range is `(7, 16)` — the end line is
`newStart + newCount + linesAfter = 16`, not the claimed
`hunkEnd + linesAfter = 12 + 3 = 15`. -/
theorem extractCodeContext_endLine_cex :
    ((extractCodeContext sampleAnalyzedDiff {}).map fun c =>
        c.ranges.map fun r => (r.startLine, r.endLine)) = [[(7, 16)]] ∧
    sampleHunk.newStart + sampleHunk.newCount - 1 + 3 = 15 := by
  exact ⟨rfl, rfl⟩

/-- Claim C9, amended: for every non-binary file of an analyzed diff with at
least one hunk, `extractCodeContext` yields a context for that file whose
ranges have `startLine = max(1, newStart - linesBefore)` and
`endLine = newStart + newCount + linesAfter` per hunk — one line past the
claimed `hunkEnd + linesAfter`, where `hunkEnd = newStart + newCount - 1`. -/
theorem extractCodeContext_range_bounds (d : AnalyzedDiff)
    (opts : CodeContextOptions) (file : DiffFile)
    (hf : file ∈ d.files) (hb : file.isBinary = false)
    (hunk : DiffHunk) (hh : hunk ∈ file.hunks) :
    ∃ ctx ∈ extractCodeContext d opts,
      ctx.path = file.path ∧
      ctx.ranges.map (fun r => (r.startLine, r.endLine)) =
        file.hunks.map fun h =>
          (max 1 (h.newStart - opts.linesBefore),
           h.newStart + h.newCount + opts.linesAfter) := by
  refine ⟨{ path := file.path,
            ranges := file.hunks.map
              (rangeOfHunk opts.linesBefore opts.linesAfter) }, ?_, rfl, ?_⟩
  · refine List.mem_filterMap.mpr ⟨file, hf, ?_⟩
    have hne : file.hunks ≠ [] := List.ne_nil_of_mem hh
    simp [hb, hne]
  · rw [List.map_map]
    rfl

/-- Claim C9, witness: the amended bounds at the concrete one-hunk diff. -/
theorem extractCodeContext_range_bounds_witness :
    ∃ ctx ∈ extractCodeContext sampleAnalyzedDiff {},
      ctx.path = sampleFile.path ∧
      ctx.ranges.map (fun r => (r.startLine, r.endLine)) =
        sampleFile.hunks.map fun h =>
          (max 1 (h.newStart - 3), h.newStart + h.newCount + 3) :=
  extractCodeContext_range_bounds sampleAnalyzedDiff {} sampleFile
    (List.mem_cons_self _ _) rfl sampleHunk (List.mem_cons_self _ _)

/-- Claim C8, witness: both monitors at capacity one with one monitored
feature, asked to monitor a second feature. -/
theorem startMonitoring_capacity_check_witness :
    ((PRFeedbackMonitor.startMonitoring [("feature-0", demoMonitoredEntry)]
        capacityOneFeedbackConfig demoStartOptions true
        (Except.error "offline") "t1").monitoredPRs =
          [("feature-0", demoMonitoredEntry)] ∧
     (PRFeedbackMonitor.startMonitoring [("feature-0", demoMonitoredEntry)]
        capacityOneFeedbackConfig demoStartOptions true
        (Except.error "offline") "t1").loopStarted = false ∧
     (PRFeedbackMonitor.startMonitoring [("feature-0", demoMonitoredEntry)]
        capacityOneFeedbackConfig demoStartOptions true
        (Except.error "offline") "t1").events.map
        (fun e => e.type) = [.pr_monitor_error]) ∧
    ((PRMergeMonitor.startMonitoring [("feature-0", demoMergeEntry)]
        capacityOneMergeConfig demoMergeOptions true
        (Except.error "offline") [] "t1").monitoredPRs =
          [("feature-0", demoMergeEntry)] ∧
     (PRMergeMonitor.startMonitoring [("feature-0", demoMergeEntry)]
        capacityOneMergeConfig demoMergeOptions true
        (Except.error "offline") [] "t1").loopStarted = false ∧
     (PRMergeMonitor.startMonitoring [("feature-0", demoMergeEntry)]
        capacityOneMergeConfig demoMergeOptions true
        (Except.error "offline") [] "t1").events.map
        (fun e => e.type) = [.pr_merge_monitor_error]) :=
  startMonitoring_capacity_check
    [("feature-0", demoMonitoredEntry)] capacityOneFeedbackConfig
    demoStartOptions true (Except.error "offline") "t1"
    [("feature-0", demoMergeEntry)] capacityOneMergeConfig
    demoMergeOptions true (Except.error "offline") [] "t1"
    (by decide) rfl (by decide) rfl

end AutomakerLoop
